import Mathlib

/-!
Verification development for the learning-agent tutoring state machine.

The definitions below are a shallow embedding of the TypeScript source:
the data model (types), the phase detector (phase-detector), the decision
table and the Assess step (assess), the Select step (select), the Decide
step (decide), the Guide step (guide), and the LangGraph state reducers
(graph). External language-model collaborator calls are externalized as
explicit parameters of type Result, exactly at the boundary where the
source performs the call; everything else is translated directly.

TypeScript string-or-null truthiness is modelled exactly: a value of type
string-or-null is falsy when it is null or the empty string, and the
source guards of the form (bang activeItemId) follow that rule.
-/

/-! ## Data model (types.ts) -/

/-- CognitiveLevel is a numeric enum in the source (values 1 to 4); the
source compares levels with numeric order, so we embed it as Nat. -/
abbrev CognitiveLevel := Nat

namespace CognitiveLevel

def IntuitionOnly : CognitiveLevel := 1

def CanDescribe : CognitiveLevel := 2

def Structured : CognitiveLevel := 3

def Transferable : CognitiveLevel := 4

end CognitiveLevel

/-- The closed five-label output vocabulary of the assessment collaborator. -/
inductive CognitiveStateLabel
  | too_vague
  | intuition_but_unclear
  | can_describe_with_structure
  | fully_structured
  | transferable
deriving DecidableEq, Repr

/-- The string value of a label (labels are string literals in the source). -/
def CognitiveStateLabel.toString : CognitiveStateLabel → String
  | .too_vague => "too_vague"
  | .intuition_but_unclear => "intuition_but_unclear"
  | .can_describe_with_structure => "can_describe_with_structure"
  | .fully_structured => "fully_structured"
  | .transferable => "transferable"

inductive TeachingIntent
  | elicit_intuition
  | force_clarification
  | introduce_structure
  | test_transfer
deriving DecidableEq, Repr

inductive TeachingPhase
  | InfoCollection
  | UnderstandingElicitation
  | Clarification
  | Structured
  | Transfer
deriving DecidableEq, Repr

inductive EvidenceSource
  | user_input
  | assessment
deriving DecidableEq, Repr

structure Evidence where
  source : EvidenceSource
  content : String
  timestamp : Nat
deriving DecidableEq, Repr

structure CognitiveState where
  summary : String
  missingParts : Option String := none
  misconceptions : Option (List String) := none
deriving DecidableEq, Repr

/-- Discriminated union: hasBasicInfo exists only once a topic exists. -/
inductive LearningItemStatus
  | awaiting_topic
  | collecting_info (hasBasicInfo : Bool)
  | learning (hasBasicInfo : Bool)
deriving DecidableEq, Repr

structure LearningItem where
  id : String
  goal : String
  currentLevel : CognitiveLevel
  cognitiveState : CognitiveState
  recentEvidence : List Evidence
  nextIntent : TeachingIntent
  status : LearningItemStatus
deriving DecidableEq, Repr

inductive MessageRole
  | user
  | assistant
deriving DecidableEq, Repr

structure Message where
  role : MessageRole
  content : String
deriving DecidableEq, Repr

inductive NextAction
  | guide
  | end_
deriving DecidableEq, Repr

/-- GraphState, with the Record of learning items embedded as an
association list (lookup by id mirrors bracket indexing). -/
structure GraphState where
  learningItems : List (String × LearningItem)
  activeItemId : Option String
  lastUserInput : String
  messages : List Message
  nextAction : NextAction
deriving DecidableEq, Repr

/-- The Result type of the source (types.ts), used for expected errors. -/
inductive Result (α : Type) (ε : Type)
  | ok (value : α)
  | err (error : ε)
deriving DecidableEq, Repr

structure AssessmentResult where
  cognitiveState : CognitiveStateLabel
  reasoning : String
deriving DecidableEq, Repr

structure TeachingDecision where
  nextIntent : TeachingIntent
  newLevel : CognitiveLevel
deriving DecidableEq, Repr

def MAX_EVIDENCE_COUNT : Nat := 5

def AWAITING_TOPIC_GOAL : String := "等待用户提出学习主题"

/-! ## LangGraph state channels (graph.ts)

A node returns a partial state; each channel has a reducer. A GraphDelta
field that is none (or the empty list) means the node did not return that
key, so the reducer keeps (or, for list channels, appends nothing to) the
current value. -/

structure GraphDelta where
  learningItems : List (String × LearningItem) := []
  activeItemId : Option String := none
  lastUserInput : Option String := none
  messages : List Message := []
  nextAction : Option NextAction := none
deriving DecidableEq, Repr

/-- Insert one binding into a Record embedded as an association list:
overwrite the binding of the key when present, append it otherwise.
This is the effect of the object spread in the learningItems reducer. -/
def insertItem : List (String × LearningItem) → String → LearningItem →
    List (String × LearningItem)
  | [], k, v => [(k, v)]
  | (k0, v0) :: rest, k, v =>
    if k0 = k then (k, v) :: rest else (k0, v0) :: insertItem rest k v

/-- learningItems reducer: spread current then update (update wins). -/
def mergeItems (current update : List (String × LearningItem)) :
    List (String × LearningItem) :=
  update.foldl (fun acc p => insertItem acc p.1 p.2) current

/-- Apply a node delta to the state using the reducers of graph.ts:
learningItems merge, activeItemId last-value-wins, lastUserInput
last-value-wins, messages concatenation, nextAction last-value-wins. -/
def applyDelta (s : GraphState) (d : GraphDelta) : GraphState :=
  { learningItems := mergeItems s.learningItems d.learningItems
    activeItemId :=
      match d.activeItemId with
      | none => s.activeItemId
      | some v => some v
    lastUserInput := d.lastUserInput.getD s.lastUserInput
    messages := s.messages ++ d.messages
    nextAction := d.nextAction.getD s.nextAction }

/-- Resolution of the active item as every node performs it: the guard
(bang activeItemId) rejects both null and the empty string (JS falsy),
then the item is looked up by id and rejected when absent. -/
def resolveActiveItem (s : GraphState) : Option LearningItem :=
  match s.activeItemId with
  | none => none
  | some id => if id = "" then none else List.lookup id s.learningItems

/-! ## Phase detector (utils/phase-detector.ts) -/

def INFO_COLLECTION_MAX_EVIDENCE : Nat := 2

def UNDERSTANDING_MAX_EVIDENCE : Nat := 3

def SPECIFIC_GOAL_MIN_LENGTH : Nat := 20

/-- The Record keyed by the four enum values; indexing at any other
number is undefined, embedded as none. -/
def LEVEL_TO_PHASE_MAP (level : CognitiveLevel) : Option TeachingPhase :=
  if level = CognitiveLevel.IntuitionOnly then
    some TeachingPhase.UnderstandingElicitation
  else if level = CognitiveLevel.CanDescribe then
    some TeachingPhase.Structured
  else if level = CognitiveLevel.Structured then
    some TeachingPhase.Transfer
  else if level = CognitiveLevel.Transferable then
    some TeachingPhase.Transfer
  else none

/-- Switch on the status union: awaiting_topic reports false, the other
two variants report their hasBasicInfo payload. -/
def hasBasicInfoFromStatus (item : LearningItem) : Bool :=
  match item.status with
  | .awaiting_topic => false
  | .collecting_info b => b
  | .learning b => b

/-- Whether the needle list is a leading segment of the haystack list. -/
def charListHasLead : List Char → List Char → Bool
  | [], _ => true
  | _ :: _, [] => false
  | a :: as, b :: bs => a == b && charListHasLead as bs

/-- Whether the needle occurs as a contiguous segment of the haystack. -/
def charListContains (needle : List Char) : List Char → Bool
  | [] => charListHasLead needle []
  | b :: bs => charListHasLead needle (b :: bs) || charListContains needle bs

/-- String.prototype.includes, on the character lists of the strings. -/
def strIncludes (s sub : String) : Bool :=
  charListContains sub.toList s.toList

/-- isGoalSpecific of the source: length above the minimum, no 等待
substring, and a 的 or 课 substring. -/
def isGoalSpecific (goal : String) : Bool :=
  decide (goal.length > SPECIFIC_GOAL_MIN_LENGTH) &&
    !(strIncludes goal "等待") &&
    (strIncludes goal "的" || strIncludes goal "课")

/-- determineTeachingPhase of the source, with the Record indexing of the
final branch embedded as an Option lookup. -/
def determineTeachingPhase (item : LearningItem) : Option TeachingPhase :=
  let evidenceCount := item.recentEvidence.length
  if !hasBasicInfoFromStatus item &&
      decide (evidenceCount ≤ INFO_COLLECTION_MAX_EVIDENCE) then
    some TeachingPhase.InfoCollection
  else if item.currentLevel = CognitiveLevel.IntuitionOnly then
    some (if evidenceCount ≤ UNDERSTANDING_MAX_EVIDENCE then
      TeachingPhase.UnderstandingElicitation
    else
      TeachingPhase.Clarification)
  else
    LEVEL_TO_PHASE_MAP item.currentLevel

/-- hasCollectedBasicInfo of the source: trust the status flag when set,
otherwise the goal heuristic with evidence count at least 2. -/
def hasCollectedBasicInfo (item : LearningItem) : Bool :=
  if hasBasicInfoFromStatus item then
    true
  else
    isGoalSpecific item.goal && decide (item.recentEvidence.length ≥ 2)

/-! ## Goal extraction (utils/goal-extractor.ts)

The language-model call inside extractLearningGoalSafe is externalized as
the Result parameter; extractLearningGoal is its total wrapper, which
degrades to the fixed default goal on failure. -/

def DEFAULT_GOAL : String := "理解用户提出的问题"

def extractLearningGoal (result : Result String String) : String :=
  match result with
  | .ok value => value
  | .err _ => DEFAULT_GOAL

/-! ## Assess step (nodes/assess.ts) -/

/-- TEACHING_DECISION_MAP together with the dispatch in
determineTeachingDecision: each label maps to a function of the current
level producing the teaching decision. -/
def determineTeachingDecision (cognitiveState : CognitiveStateLabel)
    (currentLevel : CognitiveLevel) : TeachingDecision :=
  match cognitiveState with
  | .too_vague =>
    { nextIntent := .elicit_intuition
      newLevel := CognitiveLevel.IntuitionOnly }
  | .intuition_but_unclear =>
    { nextIntent :=
        if currentLevel = CognitiveLevel.IntuitionOnly then
          .force_clarification
        else
          .elicit_intuition
      newLevel := CognitiveLevel.IntuitionOnly }
  | .can_describe_with_structure =>
    { nextIntent := .introduce_structure
      newLevel := CognitiveLevel.CanDescribe }
  | .fully_structured =>
    { nextIntent := .test_transfer
      newLevel := CognitiveLevel.Structured }
  | .transferable =>
    { nextIntent := .test_transfer
      newLevel := CognitiveLevel.Transferable }

/-- MISSING_PARTS_MAP of the source. -/
def MISSING_PARTS_MAP : CognitiveStateLabel → String
  | .too_vague => "需要更具体的表达"
  | .intuition_but_unclear => "核心概念边界、为什么不可或缺"
  | .can_describe_with_structure => "具体机制和实现细节"
  | .fully_structured => "实际应用场景和最佳实践"
  | .transferable => "无"

/-- createEvidence of the source; Date.now() is the explicit now argument. -/
def createEvidence (content : String) (now : Nat) : Evidence :=
  { source := .user_input, content := content, timestamp := now }

/-- appendEvidence of the source: append then keep the last
MAX_EVIDENCE_COUNT entries (Array.prototype.slice with a negative index
keeps the final segment). -/
def appendEvidence (existing : List Evidence) (newEvidence : Evidence) :
    List Evidence :=
  let appended := existing ++ [newEvidence]
  appended.drop (appended.length - MAX_EVIDENCE_COUNT)

/-- handleFirstInput of the source: extract the goal (total, degrading to
the default), reset the cognitive state to the fixed just-started
summary, seed the evidence list with this input, and enter
collecting_info with hasBasicInfo false. -/
def handleFirstInput (activeItem : LearningItem) (userAnswer : String)
    (now : Nat) (goalResult : Result String String) : GraphDelta :=
  let extractedGoal := extractLearningGoal goalResult
  let updatedItem : LearningItem :=
    { activeItem with
      goal := extractedGoal
      cognitiveState :=
        { summary := "学生已表达学习意愿，准备开始引导"
          missingParts := some "所有核心概念" }
      recentEvidence := [createEvidence userAnswer now]
      nextIntent := .elicit_intuition
      status := .collecting_info false }
  { learningItems := [(activeItem.id, updatedItem)] }

/-- handleSubsequentInput of the source. The assessment collaborator call
is externalized as the Result parameter. On failure only the evidence is
appended; on success the decision table, the basic-info predicate (on the
item before the append), the evidence append, the wholesale cognitive
state overwrite, and the learning status are applied. -/
def handleSubsequentInput (activeItem : LearningItem) (userAnswer : String)
    (now : Nat) (assessmentResult : Result AssessmentResult String) :
    GraphDelta :=
  match assessmentResult with
  | .err _ =>
    let updatedItem : LearningItem :=
      { activeItem with
        recentEvidence :=
          appendEvidence activeItem.recentEvidence
            (createEvidence userAnswer now) }
    { learningItems := [(activeItem.id, updatedItem)] }
  | .ok value =>
    let cognitiveState := value.cognitiveState
    let decision :=
      determineTeachingDecision cognitiveState activeItem.currentLevel
    let hasBasicInfo := hasCollectedBasicInfo activeItem
    let updatedItem : LearningItem :=
      { activeItem with
        currentLevel := decision.newLevel
        cognitiveState :=
          { summary := cognitiveState.toString
            missingParts := some (MISSING_PARTS_MAP cognitiveState) }
        recentEvidence :=
          appendEvidence activeItem.recentEvidence
            (createEvidence userAnswer now)
        nextIntent := decision.nextIntent
        status := .learning hasBasicInfo }
    { learningItems := [(activeItem.id, updatedItem)] }

/-- assessNode of the source: resolve the active item (empty delta when
it cannot be resolved), then route to the first-turn transition exactly
when the goal is still the sentinel and no evidence exists, and to the
subsequent-turn transition otherwise. -/
def assessNode (goalResult : Result String String)
    (assessmentResult : Result AssessmentResult String) (now : Nat)
    (state : GraphState) : GraphDelta :=
  match resolveActiveItem state with
  | none => {}
  | some activeItem =>
    let userAnswer := state.lastUserInput
    let isFirstInput :=
      activeItem.goal = AWAITING_TOPIC_GOAL ∧
        activeItem.recentEvidence.length = 0
    if isFirstInput then
      handleFirstInput activeItem userAnswer now goalResult
    else
      handleSubsequentInput activeItem userAnswer now assessmentResult

/-! ## Select step (nodes/select.ts) -/

/-- generateItemId of the source; Date.now() is the explicit argument. -/
def generateItemId (now : Nat) : String :=
  "item_" ++ toString now

/-- createNewLearningItem of the source: the initial lifecycle state. -/
def createNewLearningItem (id : String) : LearningItem :=
  { id := id
    goal := AWAITING_TOPIC_GOAL
    currentLevel := CognitiveLevel.IntuitionOnly
    cognitiveState :=
      { summary := "尚未开始评估"
        missingParts := some "所有内容" }
    recentEvidence := []
    nextIntent := .elicit_intuition
    status := .awaiting_topic }

/-- selectItemNode of the source: empty delta when the active item
resolves (truthy id that keys into the map), otherwise create a new item
and return the delta that activates and inserts it. -/
def selectItemNode (now : Nat) (state : GraphState) : GraphDelta :=
  match resolveActiveItem state with
  | some _ => {}
  | none =>
    let newItemId := generateItemId now
    let newItem := createNewLearningItem newItemId
    { activeItemId := some newItemId
      learningItems := [(newItemId, newItem)] }

/-! ## Decide step (nodes/decide.ts) -/

/-- decideNode of the source: end without a resolvable active item, end
at level Transferable or above, guide otherwise. Only the nextAction
channel is returned. -/
def decideNode (state : GraphState) : GraphDelta :=
  match resolveActiveItem state with
  | none => { nextAction := some .end_ }
  | some activeItem =>
    if activeItem.currentLevel ≥ CognitiveLevel.Transferable then
      { nextAction := some .end_ }
    else
      { nextAction := some .guide }

/-! ## Guide step (nodes/guide.ts)

The system prompt composition (initial prompt vs phase template selected
through determineTeachingPhase) and the sampling temperature influence
only the externalized guidance collaborator call, whose outcome is the
Result parameter; the returned delta depends only on that outcome. The
source returns the previous messages with exactly one assistant message
appended: the collaborator text on success (missing content degrades to
the empty string inside the collaborator boundary), the fixed apology on
failure. -/

def GUIDE_FALLBACK_CONTENT : String := "抱歉，我遇到了一些问题。请稍后再试。"

def guideNode (llmResult : Result String String) (state : GraphState) :
    GraphDelta :=
  match resolveActiveItem state with
  | none => {}
  | some _ =>
    match llmResult with
    | .ok guideMessage =>
      { messages :=
          state.messages ++ [{ role := .assistant, content := guideMessage }] }
    | .err _ =>
      { messages :=
          state.messages ++
            [{ role := .assistant, content := GUIDE_FALLBACK_CONTENT }] }

/-! ## Helper lemmas -/

theorem mem_of_lookup_eq_some {α β : Type} [BEq α] [LawfulBEq α] {k : α} {v : β}
    {l : List (α × β)} (h : List.lookup k l = some v) : (k, v) ∈ l := by
  induction l with
  | nil => simp [List.lookup] at h
  | cons p t ih =>
    obtain ⟨a, b⟩ := p
    by_cases hk : k = a
    · subst hk
      simp [List.lookup] at h
      simp [h]
    · have hk2 : (k == a) = false := by simp [hk]
      simp [List.lookup, hk2] at h
      exact List.mem_cons_of_mem _ (ih h)

theorem lookup_insertItem (l : List (String × LearningItem)) (k : String)
    (v : LearningItem) : List.lookup k (insertItem l k v) = some v := by
  induction l with
  | nil => simp [insertItem, List.lookup]
  | cons p t ih =>
    obtain ⟨a, b⟩ := p
    by_cases hk : a = k
    · subst hk
      simp [insertItem, List.lookup]
    · have hk2 : (k == a) = false := by simp [Ne.symm hk]
      simp [insertItem, hk, List.lookup, hk2, ih]

theorem applyDelta_emptyDelta (s : GraphState) : applyDelta s {} = s := by
  cases s
  simp [applyDelta, mergeItems]

theorem generateItemId_ne_empty (now : Nat) : generateItemId now ≠ "" := by
  intro h
  have h2 := congrArg String.length h
  simp [generateItemId, String.length_append] at h2
  exact absurd h2.1 (by decide)

theorem appendEvidence_length_le (ex : List Evidence) (e : Evidence) :
    (appendEvidence ex e).length ≤ MAX_EVIDENCE_COUNT := by
  simp [appendEvidence, MAX_EVIDENCE_COUNT]
  omega

theorem appendEvidence_evict (ex : List Evidence) (e : Evidence)
    (h : ex.length = MAX_EVIDENCE_COUNT) : appendEvidence ex e = ex.tail ++ [e] := by
  have h5 : ex.length = 5 := by simpa [MAX_EVIDENCE_COUNT] using h
  simp only [appendEvidence, List.length_append, List.length_singleton, h5,
    MAX_EVIDENCE_COUNT]
  norm_num
  obtain ⟨a, t, rfl⟩ : ∃ a t, ex = a :: t := by
    cases ex with
    | nil => simp at h5
    | cons a t => exact ⟨a, t, rfl⟩
  simp

theorem appendEvidence_getLast (ex : List Evidence) (e : Evidence) :
    (appendEvidence ex e).getLast? = some e := by
  simp only [appendEvidence, List.length_append, List.length_singleton,
    MAX_EVIDENCE_COUNT]
  rw [List.drop_append_of_le_length (by omega)]
  exact List.getLast?_concat _

/-! ## Claim theorems -/

/-- Claim C1: the decision table is total on the 5 labels crossed with the
4 levels and equals the table of the spec; the level is set, not
incremented, so a high level with a weak label drops. -/
theorem decision_table_spec :
    ∀ lvl ∈ [CognitiveLevel.IntuitionOnly, CognitiveLevel.CanDescribe,
      CognitiveLevel.Structured, CognitiveLevel.Transferable],
      determineTeachingDecision CognitiveStateLabel.too_vague lvl =
        { nextIntent := TeachingIntent.elicit_intuition
          newLevel := CognitiveLevel.IntuitionOnly } ∧
      determineTeachingDecision CognitiveStateLabel.intuition_but_unclear lvl =
        { nextIntent :=
            if lvl = CognitiveLevel.IntuitionOnly then
              TeachingIntent.force_clarification
            else
              TeachingIntent.elicit_intuition
          newLevel := CognitiveLevel.IntuitionOnly } ∧
      determineTeachingDecision CognitiveStateLabel.can_describe_with_structure lvl =
        { nextIntent := TeachingIntent.introduce_structure
          newLevel := CognitiveLevel.CanDescribe } ∧
      determineTeachingDecision CognitiveStateLabel.fully_structured lvl =
        { nextIntent := TeachingIntent.test_transfer
          newLevel := CognitiveLevel.Structured } ∧
      determineTeachingDecision CognitiveStateLabel.transferable lvl =
        { nextIntent := TeachingIntent.test_transfer
          newLevel := CognitiveLevel.Transferable } := by
  decide

/-- Witness for C1 at the Transferable level: the too_vague label resets
the level to IntuitionOnly, an apparent regression, which is permitted. -/
theorem decision_table_spec_witness :
    determineTeachingDecision CognitiveStateLabel.too_vague CognitiveLevel.Transferable =
      { nextIntent := TeachingIntent.elicit_intuition
        newLevel := CognitiveLevel.IntuitionOnly } ∧
    CognitiveLevel.IntuitionOnly < CognitiveLevel.Transferable :=
  ⟨(decision_table_spec CognitiveLevel.Transferable (by decide)).1, by decide⟩

/-- Claim C3: the evidence list is a bounded ring of capacity 5: every
operation that produces a learning item leaves at most 5 evidence
entries, and appending to a full list of 5 evicts exactly the oldest
entry while preserving the relative order of the retained entries. -/
theorem evidence_bounded_ring :
    (∀ (ex : List Evidence) (e : Evidence),
      (appendEvidence ex e).length ≤ MAX_EVIDENCE_COUNT) ∧
    (∀ (ex : List Evidence) (e : Evidence), ex.length = MAX_EVIDENCE_COUNT →
      appendEvidence ex e = ex.tail ++ [e]) ∧
    (∀ id, (createNewLearningItem id).recentEvidence.length ≤ MAX_EVIDENCE_COUNT) ∧
    (∀ (item : LearningItem) (ans : String) (now : Nat)
        (gr : Result String String) (u : LearningItem),
      List.lookup item.id (handleFirstInput item ans now gr).learningItems = some u →
      u.recentEvidence.length ≤ MAX_EVIDENCE_COUNT) ∧
    (∀ (item : LearningItem) (ans : String) (now : Nat)
        (ar : Result AssessmentResult String) (u : LearningItem),
      List.lookup item.id (handleSubsequentInput item ans now ar).learningItems = some u →
      u.recentEvidence.length ≤ MAX_EVIDENCE_COUNT) := by
  refine ⟨appendEvidence_length_le, appendEvidence_evict, ?_, ?_, ?_⟩
  · intro id
    simp [createNewLearningItem, MAX_EVIDENCE_COUNT]
  · intro item ans now gr u hu
    simp [handleFirstInput, List.lookup] at hu
    simp [← hu, MAX_EVIDENCE_COUNT]
  · intro item ans now ar u hu
    cases ar with
    | err e =>
      simp [handleSubsequentInput, List.lookup] at hu
      simp [← hu]
      exact appendEvidence_length_le _ _
    | ok v =>
      simp [handleSubsequentInput, List.lookup] at hu
      simp [← hu]
      exact appendEvidence_length_le _ _

/-- Witness for C3: appending a 6th entry to a full list of 5 keeps the
4 youngest survivors in order followed by the new entry. -/
theorem evidence_bounded_ring_witness :
    appendEvidence
      [⟨EvidenceSource.user_input, "a", 1⟩, ⟨EvidenceSource.user_input, "b", 2⟩,
       ⟨EvidenceSource.user_input, "c", 3⟩, ⟨EvidenceSource.user_input, "d", 4⟩,
       ⟨EvidenceSource.user_input, "e", 5⟩] ⟨EvidenceSource.user_input, "f", 6⟩ =
      [⟨EvidenceSource.user_input, "b", 2⟩, ⟨EvidenceSource.user_input, "c", 3⟩,
       ⟨EvidenceSource.user_input, "d", 4⟩, ⟨EvidenceSource.user_input, "e", 5⟩,
       ⟨EvidenceSource.user_input, "f", 6⟩] ∧
    (appendEvidence
      [⟨EvidenceSource.user_input, "a", 1⟩, ⟨EvidenceSource.user_input, "b", 2⟩,
       ⟨EvidenceSource.user_input, "c", 3⟩, ⟨EvidenceSource.user_input, "d", 4⟩,
       ⟨EvidenceSource.user_input, "e", 5⟩] ⟨EvidenceSource.user_input, "f", 6⟩).length ≤
      MAX_EVIDENCE_COUNT := by
  constructor
  · have h := evidence_bounded_ring.2.1
      [⟨EvidenceSource.user_input, "a", 1⟩, ⟨EvidenceSource.user_input, "b", 2⟩,
       ⟨EvidenceSource.user_input, "c", 3⟩, ⟨EvidenceSource.user_input, "d", 4⟩,
       ⟨EvidenceSource.user_input, "e", 5⟩] ⟨EvidenceSource.user_input, "f", 6⟩
      (by decide)
    simpa using h
  · exact evidence_bounded_ring.1 _ _

/-- Claim C4: when the assessment collaborator fails on a subsequent
turn, the raw user input is still appended as evidence while the level,
the intent, the status and the cognitive state stay exactly as before. -/
theorem assess_failure_stalls (item : LearningItem) (ans : String) (now : Nat)
    (e : String) :
    (List.lookup item.id
        (handleSubsequentInput item ans now (Result.err e)).learningItems).map
        LearningItem.recentEvidence =
      some (appendEvidence item.recentEvidence (createEvidence ans now)) ∧
    (appendEvidence item.recentEvidence (createEvidence ans now)).getLast? =
      some { source := EvidenceSource.user_input, content := ans, timestamp := now } ∧
    (List.lookup item.id
        (handleSubsequentInput item ans now (Result.err e)).learningItems).map
        LearningItem.currentLevel = some item.currentLevel ∧
    (List.lookup item.id
        (handleSubsequentInput item ans now (Result.err e)).learningItems).map
        LearningItem.nextIntent = some item.nextIntent ∧
    (List.lookup item.id
        (handleSubsequentInput item ans now (Result.err e)).learningItems).map
        LearningItem.status = some item.status ∧
    (List.lookup item.id
        (handleSubsequentInput item ans now (Result.err e)).learningItems).map
        LearningItem.cognitiveState = some item.cognitiveState := by
  refine ⟨?_, ?_, ?_, ?_, ?_, ?_⟩ <;>
    simp [handleSubsequentInput, List.lookup, createEvidence]
  exact appendEvidence_getLast _ _

/-- Concrete item with the empty string as id, for the C2 counterexample. -/
def cexDecideItem : LearningItem :=
  { id := ""
    goal := "g"
    currentLevel := CognitiveLevel.IntuitionOnly
    cognitiveState := { summary := "s" }
    recentEvidence := []
    nextIntent := .elicit_intuition
    status := .awaiting_topic }

/-- Concrete state whose active id is the empty string yet keys into the
item map, for the C2 counterexample. -/
def cexDecideState : GraphState :=
  { learningItems := [("", cexDecideItem)]
    activeItemId := some ""
    lastUserInput := ""
    messages := []
    nextAction := .guide }

/-- Claim C2 as stated is false: in this state the active id is non-null
and keys into learningItems, the level of the item is 1, yet decideNode
signals end rather than guide, because the source guard treats the empty
string id as falsy. -/
theorem decide_node_counterexample :
    cexDecideState.activeItemId = some "" ∧
    List.lookup "" cexDecideState.learningItems = some cexDecideItem ∧
    cexDecideItem.currentLevel = CognitiveLevel.IntuitionOnly ∧
    (decideNode cexDecideState).nextAction = some NextAction.end_ ∧
    (decideNode cexDecideState).nextAction ≠ some NextAction.guide := by
  refine ⟨rfl, by decide, rfl, by decide, by decide⟩

/-- Claim C2 (amended): with all levels in 1..4, decideNode signals end
exactly when no active item resolves (null id, empty falsy id, or id not
in the map) or the resolved item is at level Transferable, signals guide
in every other case, and touches no other channel of the state. -/
theorem decide_node_spec (s : GraphState)
    (hlv : ∀ p ∈ s.learningItems,
      p.2.currentLevel ∈ [CognitiveLevel.IntuitionOnly, CognitiveLevel.CanDescribe,
        CognitiveLevel.Structured, CognitiveLevel.Transferable]) :
    ((decideNode s).nextAction = some NextAction.end_ ↔
      resolveActiveItem s = none ∨
        ∃ item, resolveActiveItem s = some item ∧
          item.currentLevel = CognitiveLevel.Transferable) ∧
    ((decideNode s).nextAction = some NextAction.guide ↔
      ∃ item, resolveActiveItem s = some item ∧
        item.currentLevel ≠ CognitiveLevel.Transferable) ∧
    (decideNode s).learningItems = [] ∧
    (decideNode s).activeItemId = none ∧
    (decideNode s).lastUserInput = none ∧
    (decideNode s).messages = [] := by
  cases hres : resolveActiveItem s with
  | none => simp [decideNode, hres]
  | some item =>
    have hlvl : item.currentLevel = 1 ∨ item.currentLevel = 2 ∨
        item.currentLevel = 3 ∨ item.currentLevel = 4 := by
      unfold resolveActiveItem at hres
      cases hid : s.activeItemId with
      | none => rw [hid] at hres; simp at hres
      | some id =>
        rw [hid] at hres
        simp only [] at hres
        split at hres
        · simp at hres
        · have hm := hlv _ (mem_of_lookup_eq_some hres)
          simpa [CognitiveLevel.IntuitionOnly, CognitiveLevel.CanDescribe,
            CognitiveLevel.Structured, CognitiveLevel.Transferable] using hm
    have hd : decideNode s =
        if item.currentLevel ≥ CognitiveLevel.Transferable then
          { nextAction := some NextAction.end_ }
        else
          { nextAction := some NextAction.guide } := by
      unfold decideNode
      rw [hres]
    by_cases h4 : item.currentLevel ≥ CognitiveLevel.Transferable
    · have heq : item.currentLevel = CognitiveLevel.Transferable := by
        rcases hlvl with h | h | h | h <;>
          first
            | (exfalso; rw [h] at h4; exact absurd h4 (by decide))
            | (rw [h]; rfl)
      rw [hd]
      simp [h4, hres, heq]
    · have hne : item.currentLevel ≠ CognitiveLevel.Transferable := by
        intro hc
        exact h4 (ge_of_eq hc)
      rw [hd]
      simp [h4, hres, hne]

/-- Concrete resolvable state at level Transferable, for the C2 witness. -/
def wDecideItem : LearningItem :=
  { id := "w"
    goal := "g"
    currentLevel := CognitiveLevel.Transferable
    cognitiveState := { summary := "s" }
    recentEvidence := []
    nextIntent := .test_transfer
    status := .learning true }

def wDecideState : GraphState :=
  { learningItems := [("w", wDecideItem)]
    activeItemId := some "w"
    lastUserInput := ""
    messages := []
    nextAction := .guide }

/-- Witness for the amended C2: a resolvable item at level Transferable
makes decideNode signal end. -/
theorem decide_node_spec_witness :
    (decideNode wDecideState).nextAction = some NextAction.end_ :=
  ((decide_node_spec wDecideState (by decide)).1).mpr
    (Or.inr ⟨wDecideItem, by decide, rfl⟩)

/-- Concrete item with the empty string as id, for the C8 counterexample. -/
def cexSelectItem : LearningItem :=
  { id := ""
    goal := "g"
    currentLevel := CognitiveLevel.IntuitionOnly
    cognitiveState := { summary := "s" }
    recentEvidence := []
    nextIntent := .elicit_intuition
    status := .awaiting_topic }

/-- Concrete state whose active id is the empty string yet keys into the
item map, for the C8 counterexample. -/
def cexSelectState : GraphState :=
  { learningItems := [("", cexSelectItem)]
    activeItemId := some ""
    lastUserInput := ""
    messages := []
    nextAction := .guide }

/-- Claim C8 as stated is false: in this state the active id is non-null
and keys into learningItems, yet selectItemNode does not return the empty
delta, because the source guard treats the empty string id as falsy and
creates a fresh item. -/
theorem select_node_counterexample :
    cexSelectState.activeItemId = some "" ∧
    List.lookup "" cexSelectState.learningItems = some cexSelectItem ∧
    selectItemNode 0 cexSelectState ≠ {} := by
  refine ⟨rfl, by decide, by decide⟩

/-- Claim C8 (amended): when the active item resolves (non-null, non-empty
id that keys into the map) the Select step returns the empty delta;
otherwise it returns the delta that activates a freshly synthesized id
and inserts the new item in its initial lifecycle state; and a second
application right after applying the first delta is always a no-op. -/
theorem select_node_spec (now now2 : Nat) (s : GraphState) :
    (resolveActiveItem s ≠ none → selectItemNode now s = {}) ∧
    (resolveActiveItem s = none →
      selectItemNode now s =
        { activeItemId := some (generateItemId now)
          learningItems :=
            [(generateItemId now, createNewLearningItem (generateItemId now))] }) ∧
    (createNewLearningItem (generateItemId now)).goal = AWAITING_TOPIC_GOAL ∧
    (createNewLearningItem (generateItemId now)).currentLevel =
      CognitiveLevel.IntuitionOnly ∧
    (createNewLearningItem (generateItemId now)).recentEvidence = [] ∧
    (createNewLearningItem (generateItemId now)).nextIntent =
      TeachingIntent.elicit_intuition ∧
    (createNewLearningItem (generateItemId now)).status =
      LearningItemStatus.awaiting_topic ∧
    selectItemNode now2 (applyDelta s (selectItemNode now s)) = {} := by
  cases hres : resolveActiveItem s with
  | some item =>
    have h1 : selectItemNode now s = {} := by
      simp [selectItemNode, hres]
    refine ⟨fun _ => h1, fun hc => absurd hc (by simp), rfl, rfl, rfl, rfl, rfl, ?_⟩
    rw [h1, applyDelta_emptyDelta]
    simp [selectItemNode, hres]
  | none =>
    have h1 : selectItemNode now s =
        { activeItemId := some (generateItemId now)
          learningItems :=
            [(generateItemId now, createNewLearningItem (generateItemId now))] } := by
      simp [selectItemNode, hres]
    refine ⟨fun hc => absurd rfl hc, fun _ => h1, rfl, rfl, rfl, rfl, rfl, ?_⟩
    rw [h1]
    have h2 : resolveActiveItem
        (applyDelta s
          { activeItemId := some (generateItemId now)
            learningItems :=
              [(generateItemId now, createNewLearningItem (generateItemId now))] }) =
        some (createNewLearningItem (generateItemId now)) := by
      simp [applyDelta, resolveActiveItem, mergeItems, generateItemId_ne_empty now,
        lookup_insertItem]
    simp [selectItemNode, h2]

/-- Concrete resolvable state for the C8 witness. -/
def wSelectState : GraphState :=
  { learningItems := [("w", wDecideItem)]
    activeItemId := some "w"
    lastUserInput := ""
    messages := []
    nextAction := .guide }

/-- Witness for the amended C8: on a state with a resolvable active item
the Select step returns the empty delta. -/
theorem select_node_spec_witness :
    selectItemNode 1 wSelectState = {} :=
  (select_node_spec 1 1 wSelectState).1 (by decide)

/-- Concrete item whose goal is long, not the sentinel, with 2 evidence
entries, but without the 的 or 课 substring, for the C5 counterexample. -/
def cexBasicInfoItem : LearningItem :=
  { id := "i"
    goal := "aaaaaaaaaaaaaaaaaaaaaaaaa"
    currentLevel := CognitiveLevel.IntuitionOnly
    cognitiveState := { summary := "s" }
    recentEvidence :=
      [⟨EvidenceSource.user_input, "x", 1⟩, ⟨EvidenceSource.user_input, "y", 2⟩]
    nextIntent := .elicit_intuition
    status := .collecting_info false }

/-- Claim C5 as stated is false: this item reports hasBasicInfo false,
its goal is not the sentinel, its goal length exceeds the minimum, and it
has 2 evidence entries, yet hasCollectedBasicInfo is false, because the
source heuristic additionally demands a 的 or 课 substring and rejects
any goal containing 等待 even when it differs from the sentinel. -/
theorem basic_info_heuristic_counterexample :
    hasBasicInfoFromStatus cexBasicInfoItem = false ∧
    cexBasicInfoItem.goal ≠ AWAITING_TOPIC_GOAL ∧
    cexBasicInfoItem.goal.length > SPECIFIC_GOAL_MIN_LENGTH ∧
    cexBasicInfoItem.recentEvidence.length ≥ 2 ∧
    hasCollectedBasicInfo cexBasicInfoItem = false := by
  refine ⟨rfl, by decide, by decide, by decide, by decide⟩

/-- Claim C5 (amended): when the status flag is set hasCollectedBasicInfo
is true; when it is not set, hasCollectedBasicInfo is true exactly when
the goal satisfies isGoalSpecific, that is goal length above 20, no 等待
substring, and a 的 or 课 substring, together with evidence count at
least 2. -/
theorem basic_info_heuristic_spec (item : LearningItem) :
    (hasBasicInfoFromStatus item = true → hasCollectedBasicInfo item = true) ∧
    (hasBasicInfoFromStatus item = false →
      (hasCollectedBasicInfo item = true ↔
        isGoalSpecific item.goal = true ∧ item.recentEvidence.length ≥ 2)) ∧
    (isGoalSpecific item.goal = true ↔
      item.goal.length > SPECIFIC_GOAL_MIN_LENGTH ∧
        strIncludes item.goal "等待" = false ∧
        (strIncludes item.goal "的" = true ∨ strIncludes item.goal "课" = true)) := by
  refine ⟨?_, ?_, ?_⟩
  · intro h
    simp [hasCollectedBasicInfo, h]
  · intro h
    simp [hasCollectedBasicInfo, h]
  · simp [isGoalSpecific]
    constructor
    · intro h
      exact ⟨h.1.1, by simpa using h.1.2, by simpa using h.2⟩
    · intro h
      exact ⟨⟨h.1, by simpa using h.2.1⟩, by simpa using h.2.2⟩

/-- Concrete item with the status flag set, for the C5 witness. -/
def wBasicInfoItem : LearningItem :=
  { id := "i"
    goal := "g"
    currentLevel := CognitiveLevel.IntuitionOnly
    cognitiveState := { summary := "s" }
    recentEvidence := []
    nextIntent := .elicit_intuition
    status := .learning true }

/-- Witness for the amended C5: a set status flag forces the predicate. -/
theorem basic_info_heuristic_spec_witness :
    hasCollectedBasicInfo wBasicInfoItem = true :=
  (basic_info_heuristic_spec wBasicInfoItem).1 rfl

/-- Splitting the negated info-collection guard into its usable cases. -/
theorem basicInfoSplit {item : LearningItem}
    (h1 : ¬(hasBasicInfoFromStatus item = false ∧ item.recentEvidence.length ≤ 2)) :
    hasBasicInfoFromStatus item = true ∨ 2 < item.recentEvidence.length := by
  by_cases hb : hasBasicInfoFromStatus item = true
  · exact Or.inl hb
  · right
    have hb2 : hasBasicInfoFromStatus item = false := by simpa using hb
    by_contra hlen
    exact h1 ⟨hb2, by omega⟩

/-- Claim C6: the phase detector follows the priority algorithm: basic
info missing with at most 2 evidence entries gives info_collection; else
level 1 gives understanding with at most 3 entries and clarification
beyond; else level 2 gives structured and levels 3 and 4 give transfer. -/
theorem phase_detector_spec (item : LearningItem) :
    (hasBasicInfoFromStatus item = false → item.recentEvidence.length ≤ 2 →
      determineTeachingPhase item = some TeachingPhase.InfoCollection) ∧
    (¬(hasBasicInfoFromStatus item = false ∧ item.recentEvidence.length ≤ 2) →
      item.currentLevel = CognitiveLevel.IntuitionOnly →
      determineTeachingPhase item =
        some (if item.recentEvidence.length ≤ 3 then
          TeachingPhase.UnderstandingElicitation
        else
          TeachingPhase.Clarification)) ∧
    (¬(hasBasicInfoFromStatus item = false ∧ item.recentEvidence.length ≤ 2) →
      item.currentLevel = CognitiveLevel.CanDescribe →
      determineTeachingPhase item = some TeachingPhase.Structured) ∧
    (¬(hasBasicInfoFromStatus item = false ∧ item.recentEvidence.length ≤ 2) →
      (item.currentLevel = CognitiveLevel.Structured ∨
        item.currentLevel = CognitiveLevel.Transferable) →
      determineTeachingPhase item = some TeachingPhase.Transfer) := by
  refine ⟨?_, ?_, ?_, ?_⟩
  · intro h1 h2
    simp [determineTeachingPhase, h1, INFO_COLLECTION_MAX_EVIDENCE, h2]
  · intro h1 h2
    rcases basicInfoSplit h1 with hb | hlen
    · simp [determineTeachingPhase, hb, h2, UNDERSTANDING_MAX_EVIDENCE]
    · simp [determineTeachingPhase, INFO_COLLECTION_MAX_EVIDENCE,
        show ¬(item.recentEvidence.length ≤ 2) from by omega, h2,
        UNDERSTANDING_MAX_EVIDENCE]
  · intro h1 h2
    have hne1 : item.currentLevel ≠ CognitiveLevel.IntuitionOnly := by
      rw [h2]; decide
    have hmap : LEVEL_TO_PHASE_MAP item.currentLevel =
        some TeachingPhase.Structured := by
      rw [h2]; decide
    rcases basicInfoSplit h1 with hb | hlen
    · simp [determineTeachingPhase, hb, hne1, hmap]
    · simp [determineTeachingPhase, INFO_COLLECTION_MAX_EVIDENCE,
        show ¬(item.recentEvidence.length ≤ 2) from by omega, hne1, hmap]
  · intro h1 h2
    have hne1 : item.currentLevel ≠ CognitiveLevel.IntuitionOnly := by
      rcases h2 with h | h <;> rw [h] <;> decide
    have hmap : LEVEL_TO_PHASE_MAP item.currentLevel =
        some TeachingPhase.Transfer := by
      rcases h2 with h | h <;> rw [h] <;> decide
    rcases basicInfoSplit h1 with hb | hlen
    · simp [determineTeachingPhase, hb, hne1, hmap]
    · simp [determineTeachingPhase, INFO_COLLECTION_MAX_EVIDENCE,
        show ¬(item.recentEvidence.length ≤ 2) from by omega, hne1, hmap]

/-- Witness for C6: the fresh item awaits its topic with no evidence, so
the phase detector places it in info_collection. -/
theorem phase_detector_spec_witness :
    determineTeachingPhase (createNewLearningItem "w") =
      some TeachingPhase.InfoCollection :=
  (phase_detector_spec (createNewLearningItem "w")).1 rfl (by decide)

/-- Claim C7: when the active item resolves with the sentinel goal and no
evidence, the Assess step takes the first-turn transition: the goal
becomes the collaborator output (or the fixed default on failure), the
summary becomes the fixed just-started message, the evidence becomes the
single raw input entry, the intent becomes elicit_intuition, and the
status becomes collecting_info with hasBasicInfo false. -/
theorem assess_first_turn_spec (gr : Result String String)
    (ar : Result AssessmentResult String) (now : Nat) (s : GraphState)
    (item : LearningItem) (hres : resolveActiveItem s = some item)
    (hgoal : item.goal = AWAITING_TOPIC_GOAL)
    (hev : item.recentEvidence = []) :
    (List.lookup item.id (assessNode gr ar now s).learningItems).map
        LearningItem.goal =
      some (match gr with
        | Result.ok g => g
        | Result.err _ => "理解用户提出的问题") ∧
    (List.lookup item.id (assessNode gr ar now s).learningItems).map
        (fun u => u.cognitiveState.summary) =
      some "学生已表达学习意愿，准备开始引导" ∧
    (List.lookup item.id (assessNode gr ar now s).learningItems).map
        LearningItem.recentEvidence =
      some [{ source := EvidenceSource.user_input
              content := s.lastUserInput
              timestamp := now }] ∧
    (List.lookup item.id (assessNode gr ar now s).learningItems).map
        LearningItem.nextIntent = some TeachingIntent.elicit_intuition ∧
    (List.lookup item.id (assessNode gr ar now s).learningItems).map
        LearningItem.status = some (LearningItemStatus.collecting_info false) := by
  have hfirst : assessNode gr ar now s = handleFirstInput item s.lastUserInput now gr := by
    unfold assessNode
    rw [hres]
    simp [hgoal, hev]
  rw [hfirst]
  cases gr <;>
    simp [handleFirstInput, List.lookup, extractLearningGoal, DEFAULT_GOAL,
      createEvidence]

/-- Fresh-session state right before the first user turn, for the C7
witness: the Select step has created the item and the user has typed the
first message. -/
def wFirstState : GraphState :=
  { learningItems := [("item_1", createNewLearningItem "item_1")]
    activeItemId := some "item_1"
    lastUserInput := "我想学二分查找"
    messages := []
    nextAction := .guide }

/-- Witness for C7, scenario A of the spec: the mocked goal extraction
returns the extracted goal and the item enters collecting_info. -/
theorem assess_first_turn_spec_witness :
    (List.lookup "item_1"
        (assessNode (Result.ok "理解二分查找的原理") (Result.err "e") 0
          wFirstState).learningItems).map LearningItem.goal =
      some "理解二分查找的原理" ∧
    (List.lookup "item_1"
        (assessNode (Result.ok "理解二分查找的原理") (Result.err "e") 0
          wFirstState).learningItems).map LearningItem.status =
      some (LearningItemStatus.collecting_info false) := by
  have h := assess_first_turn_spec (Result.ok "理解二分查找的原理")
    (Result.err "e") 0 wFirstState (createNewLearningItem "item_1")
    (by decide) rfl rfl
  exact ⟨h.1, h.2.2.2.2⟩

/-- Claim C9: on a state with a resolvable active item, a failing
guidance collaborator call makes the Guide step return exactly the
previous messages extended by one assistant message carrying the fixed
apology text, and no other channel of the state. -/
theorem guide_failure_apology (e : String) (s : GraphState)
    (item : LearningItem) (hres : resolveActiveItem s = some item) :
    guideNode (Result.err e) s =
      { messages :=
          s.messages ++
            [{ role := MessageRole.assistant
               content := "抱歉，我遇到了一些问题。请稍后再试。" }] } := by
  unfold guideNode
  rw [hres]
  rfl

/-- Concrete resolvable state with one prior message, for the C9 witness. -/
def wGuideState : GraphState :=
  { learningItems := [("w", wDecideItem)]
    activeItemId := some "w"
    lastUserInput := ""
    messages := [{ role := .user, content := "hi" }]
    nextAction := .guide }

/-- Witness for C9: a concrete failing guidance call appends the apology. -/
theorem guide_failure_apology_witness :
    guideNode (Result.err "boom") wGuideState =
      { messages :=
          wGuideState.messages ++
            [{ role := MessageRole.assistant
               content := "抱歉，我遇到了一些问题。请稍后再试。" }] } :=
  guide_failure_apology "boom" wGuideState wDecideItem (by decide)

/-- Item one successful turn away from satisfying the basic-info
heuristic, for the lag exhibit of C10. -/
def lagItem : LearningItem :=
  { id := "i"
    goal := "掌握 React Hooks 的使用方法和最佳实践"
    currentLevel := CognitiveLevel.IntuitionOnly
    cognitiveState := { summary := "s" }
    recentEvidence := [⟨EvidenceSource.user_input, "第一次回答", 1⟩]
    nextIntent := .elicit_intuition
    status := .collecting_info false }

/-- Claim C10: on a successful subsequent-turn assessment the stored
hasBasicInfo flag is hasCollectedBasicInfo of the item before the append
of the new evidence entry, and on a concrete item the flag therefore lags
one turn behind what the post-append item would satisfy. -/
theorem basic_info_flag_lags :
    (∀ (item : LearningItem) (ans : String) (now : Nat) (a : AssessmentResult),
      (List.lookup item.id
          (handleSubsequentInput item ans now (Result.ok a)).learningItems).map
          LearningItem.status =
        some (LearningItemStatus.learning (hasCollectedBasicInfo item))) ∧
    hasCollectedBasicInfo lagItem = false ∧
    (List.lookup lagItem.id
        (handleSubsequentInput lagItem "第二次回答" 2
          (Result.ok { cognitiveState := .too_vague
                       reasoning := "r" })).learningItems).map
        hasCollectedBasicInfo = some true := by
  refine ⟨?_, by decide, by decide⟩
  intro item ans now a
  simp [handleSubsequentInput, List.lookup]
